import Mathlib

/-!
Shallow embedding of the CDI OCI-spec modifier and of the containerd
config builder of the nvidia-container-toolkit repository slice, together
with a spec-modelled containerd V1 config migrator, and proofs of the
specification's claims about them.

External collaborators (the OCI spec loader, the CDI registry library and
the TOML library) are modelled as explicit inputs: functions and `Except`
outcomes passed to the embedded operations.
-/

/-- Models the `cfg.NVIDIAContainerRuntimeConfig.Modes.CDI` sub-config
consulted by the CDI modifier: the default device kind used to qualify
bare device names, and the configured CDI spec directories. -/
structure CDIModeConfig where
  DefaultKind : String
  SpecDirs : List String

/-- Models the toolkit `config.Config` fields consulted by the CDI
modifier: the accept-unprivileged flag and the CDI mode sub-config. -/
structure Config where
  AcceptEnvvarUnprivileged : Bool
  cdiMode : CDIModeConfig

/-- Models the loaded OCI runtime spec together with the outcomes of the
collaborator calls `getDevicesFromSpec` makes on it:
`parseAnnotationsResult` is the qualified-device output of
`cdi.ParseAnnotations(rawSpec.Annotations)`;
`devicesFromEnvvars` is the device list reached through
`image.NewCUDAImageFromSpec` and `DevicesFromEnvvars(NVIDIA_VISIBLE_DEVICES)`
(an error value models a failure of `NewCUDAImageFromSpec`);
`isPrivileged` models `image.IsPrivileged(rawSpec)`. -/
structure RawSpec where
  parseAnnotationsResult : Except String (List String)
  devicesFromEnvvars : Except String (List String)
  isPrivileged : Bool

/-- Models the `oci.Spec` collaborator: `Load()` either yields the raw
spec or fails. -/
structure OCISpec where
  load : Except String RawSpec

/-- The env-device loop of `getDevicesFromSpec` (internal/modifier/cdi.go).
`seen` mirrors the Go map `seen`; exactly as in the source, nothing is
ever inserted into it (the Go code has no `seen[name] = true`), it is only
read. Accumulates the device list and the duplicate diagnostics. -/
def envDeviceLoopGo (isQualifiedName : String → Bool) (defaultKind : String)
    (seen : List String) (devices diags : List String) :
    List String → List String × List String
  | [] => (devices, diags)
  | name :: rest =>
    let name := if isQualifiedName name then name else defaultKind ++ "=" ++ name
    if seen.contains name then
      envDeviceLoopGo isQualifiedName defaultKind seen devices
        (diags ++ ["Ignoring duplicate device " ++ name]) rest
    else
      envDeviceLoopGo isQualifiedName defaultKind seen
        (devices ++ [name]) diags rest

/-- The env-device loop started, as in the source, with an empty `seen`
map and empty accumulators. -/
def envDeviceLoop (isQualifiedName : String → Bool) (defaultKind : String)
    (envDevices : List String) : List String × List String :=
  envDeviceLoopGo isQualifiedName defaultKind [] [] [] envDevices

/-- Shallow embedding of `getDevicesFromSpec` (internal/modifier/cdi.go).
`isQualifiedName` models the CDI collaborator `cdi.IsQualifiedName`.
The Go `return nil, nil` outcomes are `.ok []`. -/
def getDevicesFromSpec (isQualifiedName : String → Bool) (ociSpec : OCISpec)
    (cfg : Config) : Except String (List String) :=
  match ociSpec.load with
  | .error e => .error ("failed to load OCI spec: " ++ e)
  | .ok rawSpec =>
    match rawSpec.parseAnnotationsResult with
    | .error e => .error ("failed to parse container annotations: " ++ e)
    | .ok annotationDevices =>
      if annotationDevices.length > 0 then
        .ok annotationDevices
      else
        match rawSpec.devicesFromEnvvars with
        | .error e => .error e
        | .ok envDevices =>
          let devices :=
            (envDeviceLoop isQualifiedName cfg.cdiMode.DefaultKind envDevices).fst
          if devices.length == 0 then
            .ok []
          else if cfg.AcceptEnvvarUnprivileged || rawSpec.isPrivileged then
            .ok devices
          else
            .ok []

/-- The state of the `cdiModifier` value built by `NewCDIModifier`
(the logger is not modelled). -/
structure CdiModifier where
  specDirs : List String
  devices : List String

/-- Models the CDI collaborator constant `cdi.DefaultSpecDirs`. -/
def defaultSpecDirs : List String := ["/etc/cdi", "/var/run/cdi"]

/-- Shallow embedding of `NewCDIModifier`: a `.ok none` result models the
Go `return nil, nil` no-op outcome. -/
def NewCDIModifier (isQualifiedName : String → Bool) (ociSpec : OCISpec)
    (cfg : Config) : Except String (Option CdiModifier) :=
  match getDevicesFromSpec isQualifiedName ociSpec cfg with
  | .error e =>
    .error ("failed to get required devices from OCI specification: " ++ e)
  | .ok devices =>
    if devices.length == 0 then
      .ok none
    else
      let specDirs :=
        if cfg.cdiMode.SpecDirs.length > 0 then cfg.cdiMode.SpecDirs
        else defaultSpecDirs
      .ok (some { specDirs := specDirs, devices := devices })

/-- Shallow embedding of `cdiModifier.Modify`. The registry is an external
collaborator, so the outcomes of its calls are inputs: `refreshResult`
models `registry.Refresh()` and `injectResult` models
`registry.InjectDevices(spec, devices...)`. The first component collects
the log: a refresh failure is only logged at debug level and execution
continues, exactly as in the source. -/
def cdiModifierModify (refreshResult : Except String Unit)
    (injectResult : Except String (List String)) :
    List String × Except String Unit :=
  let logs :=
    match refreshResult with
    | .error e =>
      ["The following error was triggered when refreshing the CDI registry: " ++ e]
    | .ok _ => []
  match injectResult with
  | .error e => (logs, .error ("failed to inject CDI devices: " ++ e))
  | .ok _ => (logs, .ok ())

/-- The env-device loop with an empty `seen` map qualifies every entry and
skips nothing: since the source never inserts into `seen`, the duplicate
branch is dead and the output is the qualified input, with no diagnostics. -/
theorem envDeviceLoopGo_empty_seen (isQualifiedName : String → Bool)
    (defaultKind : String) (envDevices devices diags : List String) :
    envDeviceLoopGo isQualifiedName defaultKind [] devices diags envDevices =
      (devices ++ envDevices.map
        (fun name => if isQualifiedName name then name
          else defaultKind ++ "=" ++ name), diags) := by
  induction envDevices generalizing devices with
  | nil => simp [envDeviceLoopGo]
  | cons name rest ih =>
    simp only [envDeviceLoopGo, List.contains, List.elem, List.map_cons]
    rw [ih]
    simp

/-- The resolved env-device list is the qualified input list, diagnostics
empty. -/
theorem envDeviceLoop_eq (isQualifiedName : String → Bool)
    (defaultKind : String) (envDevices : List String) :
    envDeviceLoop isQualifiedName defaultKind envDevices =
      (envDevices.map
        (fun name => if isQualifiedName name then name
          else defaultKind ++ "=" ++ name), []) := by
  simp [envDeviceLoop, envDeviceLoopGo_empty_seen]

/-- Concrete instantiation of the collaborator `cdi.IsQualifiedName` used
for concrete evaluations: a name counts as qualified when it holds an
equals sign (bare device indices such as "0" do not). -/
def sampleIsQualified (s : String) : Bool := s.data.contains '='

/-- A concrete raw spec whose env-var device list is ["0", "0"] (a
duplicate), with no annotation devices and a privileged container. -/
def dupDeviceRawSpec : RawSpec :=
  { parseAnnotationsResult := .ok []
    devicesFromEnvvars := .ok ["0", "0"]
    isPrivileged := true }

/-- A concrete toolkit config with default kind nvidia.com/gpu. -/
def dupDeviceConfig : Config :=
  { AcceptEnvvarUnprivileged := false
    cdiMode := { DefaultKind := "nvidia.com/gpu", SpecDirs := [] } }

/-- C1: refuted by the code — on the env-var device list ["0", "0"] with
default kind nvidia.com/gpu, `getDevicesFromSpec` returns the qualified
identifier nvidia.com/gpu=0 twice and emits no duplicate diagnostic: the
Go code never inserts into its `seen` map, so the duplicate-skip branch is
unreachable. The claim (each distinct identifier exactly once, with a
diagnostic per skipped duplicate) is the evident intent of the dead
branch, so this is a bug in the code, not in the claim. -/
theorem getDevicesFromSpec_keeps_duplicate_devices :
    getDevicesFromSpec sampleIsQualified ⟨.ok dupDeviceRawSpec⟩ dupDeviceConfig
      = .ok ["nvidia.com/gpu=0", "nvidia.com/gpu=0"]
    ∧ (envDeviceLoop sampleIsQualified "nvidia.com/gpu" ["0", "0"]).snd = [] := by
  constructor
  · rfl
  · rfl

/-- C2: if the annotations parse to at least one CDI-qualified device
name, `getDevicesFromSpec` returns exactly those annotation devices; the
env-var fields of the raw spec (`devicesFromEnvvars`, `isPrivileged`) and
the whole config are universally quantified and unconstrained, so the
NVIDIA_VISIBLE_DEVICES environment variable is never consulted. -/
theorem annotation_devices_win (isQualifiedName : String → Bool)
    (ociSpec : OCISpec) (rawSpec : RawSpec) (cfg : Config)
    (annotationDevices : List String)
    (hload : ociSpec.load = .ok rawSpec)
    (hann : rawSpec.parseAnnotationsResult = .ok annotationDevices)
    (hne : annotationDevices ≠ []) :
    getDevicesFromSpec isQualifiedName ociSpec cfg = .ok annotationDevices := by
  have hlen : annotationDevices.length > 0 := List.length_pos.mpr hne
  simp [getDevicesFromSpec, hload, hann, hlen]

/-- Closed witness for the annotation-precedence theorem, at a raw spec
whose env-var lookup would even fail. -/
theorem annotation_devices_win_witness :
    getDevicesFromSpec sampleIsQualified
      ⟨.ok { parseAnnotationsResult := .ok ["nvidia.com/gpu=0"]
             devicesFromEnvvars := .error "no env"
             isPrivileged := false }⟩ dupDeviceConfig
      = .ok ["nvidia.com/gpu=0"] :=
  annotation_devices_win sampleIsQualified _ _ dupDeviceConfig
    ["nvidia.com/gpu=0"] rfl rfl (by decide)

/-- C3: when the annotations yield no devices, the env-var device list is
non-empty, the container is not privileged and AcceptEnvvarUnprivileged is
false, `getDevicesFromSpec` drops the whole list: it returns the empty
device list with a nil error (`.ok []`), not a failure. -/
theorem unprivileged_envvar_devices_dropped (isQualifiedName : String → Bool)
    (ociSpec : OCISpec) (rawSpec : RawSpec) (cfg : Config)
    (envDevices : List String)
    (hload : ociSpec.load = .ok rawSpec)
    (hann : rawSpec.parseAnnotationsResult = .ok [])
    (henv : rawSpec.devicesFromEnvvars = .ok envDevices)
    (hne : envDevices ≠ [])
    (hpriv : rawSpec.isPrivileged = false)
    (hacc : cfg.AcceptEnvvarUnprivileged = false) :
    getDevicesFromSpec isQualifiedName ociSpec cfg = .ok [] := by
  have hlen : envDevices.length ≠ 0 := by
    simpa [List.length_eq_zero] using hne
  simp [getDevicesFromSpec, hload, hann, henv, hpriv, hacc, envDeviceLoop_eq, hlen]

/-- Closed witness for the unprivileged env-var drop, at the duplicate
sample spec made unprivileged. -/
theorem unprivileged_envvar_devices_dropped_witness :
    getDevicesFromSpec sampleIsQualified
      ⟨.ok { dupDeviceRawSpec with isPrivileged := false }⟩ dupDeviceConfig
      = .ok [] :=
  unprivileged_envvar_devices_dropped sampleIsQualified _ _ dupDeviceConfig
    ["0", "0"] rfl rfl rfl (by decide) rfl rfl

/-- C4: whenever the resolved device list is empty, `NewCDIModifier`
returns a nil modifier with a nil error (`.ok none`) — a no-op outcome,
not a failure. -/
theorem newCDIModifier_no_devices_noop (isQualifiedName : String → Bool)
    (ociSpec : OCISpec) (cfg : Config)
    (hdev : getDevicesFromSpec isQualifiedName ociSpec cfg = .ok []) :
    NewCDIModifier isQualifiedName ociSpec cfg = .ok none := by
  simp [NewCDIModifier, hdev]

/-- Closed witness for the no-op construction, at a spec that requests no
devices at all. -/
theorem newCDIModifier_no_devices_noop_witness :
    NewCDIModifier sampleIsQualified
      ⟨.ok { parseAnnotationsResult := .ok []
             devicesFromEnvvars := .ok []
             isPrivileged := true }⟩ dupDeviceConfig
      = .ok none :=
  newCDIModifier_no_devices_noop sampleIsQualified _ dupDeviceConfig rfl

/-- C5: `Modify` fails exactly when `registry.InjectDevices` fails, with
the injection error wrapped; a `registry.Refresh` failure alone never
fails `Modify` (its result is universally quantified on both sides, and on
a successful injection the outcome is `.ok` whatever `refreshResult` is). -/
theorem modify_error_iff_inject_error (refreshResult : Except String Unit)
    (injectResult : Except String (List String)) :
    (∀ devs, injectResult = .ok devs →
      (cdiModifierModify refreshResult injectResult).snd = .ok ())
    ∧ (∀ e, injectResult = .error e →
      (cdiModifierModify refreshResult injectResult).snd =
        .error ("failed to inject CDI devices: " ++ e)) := by
  constructor
  · intro devs h
    simp [cdiModifierModify, h]
  · intro e h
    simp [cdiModifierModify, h]

/-- A TOML value at a key of the containerd config tree, as the go-toml
collaborator hands it back from `Get` (a Go `interface{}`). -/
inductive TomlValue where
  | tomlInt (v : Int)
  | tomlString (s : String)
  | tomlBool (b : Bool)
  | tomlTable (pairs : List (String × TomlValue))

/-- Models the containerd `Config` of the config builder: the loaded TOML
tree restricted to what `Get("version")` and `Keys()` consult — the
ordered list of top-level key/value pairs. -/
structure ContainerdConfig where
  tree : List (String × TomlValue)

/-- Models `Tree.Get(key)` for a top-level key. -/
def ContainerdConfig.Get (c : ContainerdConfig) (key : String) : Option TomlValue :=
  match c.tree.find? (fun kv => kv.fst == key) with
  | some kv => some kv.snd
  | none => none

/-- Models `Tree.Keys()`. -/
def ContainerdConfig.Keys (c : ContainerdConfig) : List String :=
  c.tree.map Prod.fst

/-- Shallow embedding of `Config.parseVersion` of the containerd config
builder: the Go `switch` on the type of `c.Get("version")` becomes a
match on the optional TOML value. -/
def ContainerdConfig.parseVersion (c : ContainerdConfig)
    (useLegacyConfig : Bool) : Except String Int :=
  let defaultVersion : Int := if useLegacyConfig then 1 else 2
  match c.Get "version" with
  | none =>
    match c.Keys.length with
    | 0 => .ok defaultVersion
    | _ + 1 => .ok 1
  | some (.tomlInt v) => .ok v
  | some _ => .error "unsupported type for version field"

/-- Outcome of the file system at a path, as `os.Stat` observes it. -/
inductive StatOutcome where
  | okFile
  | okDir
  | errNotExist
  | errOther (msg : String)

/-- The error classes of the os collaborator relevant to `loadConfig`.
`exist` is the class `os.IsExist` recognises (EEXIST-like errors from
creating calls); a stat call never produces it, which is what claim C10
turns on. -/
inductive OSErr where
  | notExist
  | exist
  | other (msg : String)

/-- Models `info, err := os.Stat(config)`: on success `err` is nil and the
FileInfo records IsDir(); a stat failure is a not-exist or other error,
never an EEXIST-class error. -/
def osStat (fs : String → StatOutcome) (path : String) :
    Option Bool × Option OSErr :=
  match fs path with
  | .okFile => (some false, none)
  | .okDir => (some true, none)
  | .errNotExist => (none, some .notExist)
  | .errOther m => (none, some (.other m))

/-- Models `os.IsExist(err)`. -/
def osIsExist : Option OSErr → Bool
  | some .exist => true
  | _ => false

/-- Models `os.IsNotExist(err)`. -/
def osIsNotExist : Option OSErr → Bool
  | some .notExist => true
  | _ => false

/-- Shallow embedding of `loadConfig` of the containerd config builder.
`fs` models the file system consulted by `os.Stat`, `tomlLoadFile` models
`toml.LoadFile`; `info.getD false` models `info.IsDir()` reached only
behind the short-circuiting `&&`. -/
def loadConfig (fs : String → StatOutcome)
    (tomlLoadFile : String → Except String (List (String × TomlValue)))
    (config : String) : Except String ContainerdConfig :=
  let stat := osStat fs config
  let info := stat.fst
  let err := stat.snd
  if osIsExist err && info.getD false then
    .error "config file is a directory"
  else
    let configFile := if osIsNotExist err then "/dev/null" else config
    match tomlLoadFile configFile with
    | .error e => .error e
    | .ok t => .ok { tree := t }

/-- C6: the four version-detection cases of `parseVersion`: no version key
and an empty tree gives 2 (1 when legacy is requested); no version key but
at least one top-level key gives 1; an integer version is returned
verbatim; any other type of the version value is an error. -/
theorem parseVersion_cases (c : ContainerdConfig) (useLegacyConfig : Bool) :
    (c.Get "version" = none → c.Keys.length = 0 →
      c.parseVersion useLegacyConfig = .ok (if useLegacyConfig then 1 else 2))
    ∧ (c.Get "version" = none → c.Keys.length ≠ 0 →
      c.parseVersion useLegacyConfig = .ok 1)
    ∧ (∀ v : Int, c.Get "version" = some (.tomlInt v) →
      c.parseVersion useLegacyConfig = .ok v)
    ∧ (∀ x : TomlValue, c.Get "version" = some x →
      (∀ v : Int, x ≠ .tomlInt v) →
      c.parseVersion useLegacyConfig =
        .error "unsupported type for version field") := by
  refine ⟨?_, ?_, ?_, ?_⟩
  · intro hv hk
    simp [ContainerdConfig.parseVersion, hv, hk]
  · intro hv hk
    rcases n : c.Keys.length with _ | m
    · exact absurd n hk
    · simp [ContainerdConfig.parseVersion, hv, n]
  · intro v hv
    simp [ContainerdConfig.parseVersion, hv]
  · intro x hv hne
    cases x with
    | tomlInt v => exact absurd rfl (hne v)
    | tomlString s => simp [ContainerdConfig.parseVersion, hv]
    | tomlBool b => simp [ContainerdConfig.parseVersion, hv]
    | tomlTable t => simp [ContainerdConfig.parseVersion, hv]

/-- C10: `loadConfig` never takes the "config file is a directory" branch:
a stat call never yields an EEXIST-class error and on success the error is
nil, so `os.IsExist(err)` is always false; for every file system, TOML
loader and path, `loadConfig` goes straight to the TOML loader, and on a
path naming an existing directory it loads that very path. -/
theorem loadConfig_never_directory_error (fs : String → StatOutcome)
    (tomlLoadFile : String → Except String (List (String × TomlValue)))
    (path : String) :
    osIsExist (osStat fs path).snd = false
    ∧ loadConfig fs tomlLoadFile path =
      (match tomlLoadFile
          (if osIsNotExist (osStat fs path).snd then "/dev/null" else path) with
        | .error e => .error e
        | .ok t => .ok { tree := t })
    ∧ (fs path = .okDir → loadConfig fs tomlLoadFile path =
        (match tomlLoadFile path with
          | .error e => .error e
          | .ok t => .ok { tree := t })) := by
  have hexist : osIsExist (osStat fs path).snd = false := by
    rcases h : fs path with _ | _ | _ | m <;> simp [osStat, h, osIsExist]
  refine ⟨hexist, ?_, ?_⟩
  · simp [loadConfig, hexist]
  · intro hdir
    simp [loadConfig, osStat, hdir, osIsNotExist, osIsExist]

/-- Lookup in an ordered association list (a TOML sub-table). -/
def assocGet {α : Type} : List (String × α) → String → Option α
  | [], _ => none
  | (k', v) :: rest, k => if k' == k then some v else assocGet rest k

/-- Write-or-append in an ordered association list: an existing key keeps
its position, a new key is appended. -/
def assocSet {α : Type} : List (String × α) → String → α → List (String × α)
  | [], k, v => [(k, v)]
  | (k', v') :: rest, k, v =>
    if k' == k then (k, v) :: rest else (k', v') :: assocSet rest k v

/-- Modelled from the spec: a Runtime Entry, the sub-tree under
plugins.cri.containerd.runtimes.name of a V1 containerd config, with
fields runtime_type, runtime_root, runtime_engine,
privileged_without_host_devices, container_annotations and
options (BinaryName, Runtime, extra options). The V1 migrator code
(AddRuntime, RemoveRuntime of the containerd engine config) is not among
the given source files; only its tests are, so the entry and the
operations on it are modelled from the spec and pinned by those tests. -/
structure RuntimeEntry where
  runtime_type : String
  runtime_root : String
  runtime_engine : String
  privileged_without_host_devices : Bool
  container_annotations : Option (List String)
  options : List (String × String)
  deriving DecidableEq

/-- Modelled from the spec: the part of a V1 containerd config tree the
migrator touches — the version key, the runtime entries under
plugins.cri.containerd.runtimes, and the default-runtime pointer or
inline entry under plugins.cri.containerd. -/
structure ConfigV1Tree where
  version : Option Int
  runtimes : List (String × RuntimeEntry)
  default_runtime : Option RuntimeEntry
  default_runtime_name : Option String
  deriving DecidableEq

/-- The empty config tree. -/
def emptyTreeV1 : ConfigV1Tree :=
  { version := none, runtimes := [], default_runtime := none,
    default_runtime_name := none }

/-- Modelled from the spec: the containerd ConfigV1 value of the engine
config package — the tree plus the UseDefaultRuntimeName and RuntimeType
fields the builder sets (UseDefaultRuntimeName is the negation of the
legacy-config flag). -/
structure ConfigV1 where
  tree : ConfigV1Tree
  UseDefaultRuntimeName : Bool
  RuntimeType : String

/-- Modelled from the spec: the options the CLI passes to UpdateConfig and
RevertConfig — the runtime class, the set-as-default flag and the
directory holding the runtime binaries. -/
structure UpdateOptions where
  runtimeClass : String
  setAsDefault : Bool
  runtimeDir : String

/-- The base runtime name "nvidia" the empty runtime class falls back to. -/
def nvidiaRuntimeName : String := "nvidia"

/-- The base runtime binary. -/
def nvidiaRuntimeBinary : String := "nvidia-container-runtime"

/-- Modelled from the spec: the static ordered table of suffixed
(runtime-name, binary) pairs consumed by both Update and Revert. -/
def suffixedRuntimes : List (String × String) :=
  [("nvidia-experimental", "nvidia-container-runtime.experimental"),
   ("nvidia-cdi", "nvidia-container-runtime.cdi"),
   ("nvidia-legacy", "nvidia-container-runtime.legacy")]

/-- filepath.Join of the runtime directory and a binary name. -/
def joinPath (dir file : String) : String := dir ++ "/" ++ file

/-- Modelled from the spec: a missing or empty runtimeClass falls back to
the base name "nvidia". -/
def effectiveClass (o : UpdateOptions) : String :=
  if o.runtimeClass == "" then nvidiaRuntimeName else o.runtimeClass

/-- Modelled from the spec and pinned by the tests: the managed
(name, binary) pairs. The effective runtime class gets the base binary —
under its own name when it is not one of the suffixed names, and as the
canonical "nvidia" entry when it is — and the three suffixed runtimes are
always written under their canonical names. -/
def managedRuntimes (o : UpdateOptions) : List (String × String) :=
  let base := effectiveClass o
  let baseEntry :=
    if (suffixedRuntimes.map Prod.fst).contains base then
      (nvidiaRuntimeName, nvidiaRuntimeBinary)
    else
      (base, nvidiaRuntimeBinary)
  baseEntry :: suffixedRuntimes

/-- The managed pairs with the set-as-default flag: only the effective
runtime class carries the options' setAsDefault. -/
def managedRuntimesWithDefaultFlag (o : UpdateOptions) :
    List (String × String × Bool) :=
  (managedRuntimes o).map
    (fun nb => (nb.fst, nb.snd, o.setAsDefault && nb.fst == effectiveClass o))

/-- The fresh entry used when no runc entry exists to inherit from. -/
def defaultRuntimeEntry (runtimeType : String) : RuntimeEntry :=
  { runtime_type := runtimeType, runtime_root := "", runtime_engine := "",
    privileged_without_host_devices := false, container_annotations := none,
    options := [] }

/-- The container_annotations CDI selector tag Update writes. -/
def cdiAnnotationSelectors : List String := ["cdi.k8s.io/*"]

/-- The entry AddRuntime builds before the container_annotations tag is
applied: the inherited base with BinaryName and Runtime forced to the
computed binary path. The inline default_runtime copy is taken at this
stage (the tests show the inline copy carries no container_annotations). -/
def builtEntryNoSelector (base : RuntimeEntry) (binaryPath : String) :
    RuntimeEntry :=
  { base with options := assocSet (assocSet base.options "BinaryName" binaryPath) "Runtime" binaryPath }

/-- The finished runtime entry: the pre-selector entry tagged with the
container_annotations CDI selector. -/
def builtEntry (base : RuntimeEntry) (binaryPath : String) : RuntimeEntry :=
  { builtEntryNoSelector base binaryPath with
      container_annotations := some cdiAnnotationSelectors }

/-- The entry a new runtime inherits from: the pre-existing runc entry
when present, else a fresh entry with the config's RuntimeType. -/
def inheritBase (cfg : ConfigV1) : RuntimeEntry :=
  match assocGet cfg.tree.runtimes "runc" with
  | some runc => runc
  | none => defaultRuntimeEntry cfg.RuntimeType

/-- Modelled from the spec: AddRuntime of the V1 engine config. Writes the
runtime entry under the given name, inheriting runtime_type, runtime_root,
runtime_engine, privileged_without_host_devices and extra options from a
pre-existing runc entry; on setAsDefault it writes the
default_runtime_name pointer when UseDefaultRuntimeName is set and
otherwise inlines the pre-selector entry under default_runtime; and it
stamps version 1. -/
def addRuntimeV1 (cfg : ConfigV1) (name binaryPath : String)
    (setAsDefault : Bool) : ConfigV1 :=
  let base := inheritBase cfg
  let t := cfg.tree
  let t := { t with runtimes := assocSet t.runtimes name (builtEntry base binaryPath) }
  let t :=
    if setAsDefault && cfg.UseDefaultRuntimeName then
      { t with default_runtime_name := some name }
    else if setAsDefault then
      { t with default_runtime := some (builtEntryNoSelector base binaryPath) }
    else t
  let t := { t with version := some 1 }
  { cfg with tree := t }

/-- AddRuntime applied in order to a list of (name, binary, setAsDefault)
triples, with the binary joined onto the runtime directory. -/
def applyRuntimeUpdates (cfg : ConfigV1) (dir : String) :
    List (String × String × Bool) → ConfigV1
  | [] => cfg
  | x :: rest =>
    applyRuntimeUpdates
      (addRuntimeV1 cfg x.fst (joinPath dir x.snd.fst) x.snd.snd) dir rest

/-- Modelled from the spec: UpdateConfig against a V1 config — AddRuntime
for every managed (name, binary) pair, the effective class carrying the
setAsDefault flag. -/
def UpdateConfigV1 (cfg : ConfigV1) (o : UpdateOptions) : ConfigV1 :=
  applyRuntimeUpdates cfg o.runtimeDir (managedRuntimesWithDefaultFlag o)

/-- Modelled from the spec: RevertConfig against a V1 config — deletes
exactly the managed runtime entries, drops default_runtime_name if it
names a managed runtime and the inline default_runtime if its BinaryName
is a managed binary path, and removes the version stamp once nothing else
remains (the tests revert the updated trees to the empty tree). -/
def RevertConfigV1 (cfg : ConfigV1) (o : UpdateOptions) : ConfigV1 :=
  let managed := managedRuntimes o
  let managedNames := managed.map Prod.fst
  let managedBinaries := managed.map (fun nb => joinPath o.runtimeDir nb.snd)
  let t := cfg.tree
  let runtimesKept := t.runtimes.filter (fun kv => !(managedNames.contains kv.fst))
  let drn :=
    match t.default_runtime_name with
    | some n => if managedNames.contains n then none else some n
    | none => none
  let dr :=
    match t.default_runtime with
    | some e =>
      match assocGet e.options "BinaryName" with
      | some b => if managedBinaries.contains b then none else some e
      | none => some e
    | none => none
  let version :=
    if runtimesKept.isEmpty && dr.isNone && drn.isNone then none else t.version
  { cfg with tree :=
      { version := version, runtimes := runtimesKept,
        default_runtime := dr, default_runtime_name := drn } }

theorem assocGet_assocSet_self {α : Type} (l : List (String × α)) (k : String)
    (v : α) : assocGet (assocSet l k v) k = some v := by
  induction l with
  | nil => simp [assocGet, assocSet]
  | cons kv rest ih =>
    by_cases h : kv.fst = k
    · simp [assocSet, assocGet, h]
    · have hb : (kv.fst == k) = false := beq_eq_false_iff_ne.mpr h
      simp [assocSet, assocGet, hb, ih]

theorem assocGet_assocSet_ne {α : Type} (l : List (String × α)) (k k' : String)
    (v : α) (h : k' ≠ k) : assocGet (assocSet l k v) k' = assocGet l k' := by
  have hb : (k == k') = false := beq_eq_false_iff_ne.mpr (Ne.symm h)
  induction l with
  | nil => simp [assocGet, assocSet, hb]
  | cons kv rest ih =>
    rcases kv with ⟨a, b⟩
    by_cases hak : a = k
    · subst hak
      simp [assocSet, assocGet, hb]
    · have hab : (a == k) = false := beq_eq_false_iff_ne.mpr hak
      by_cases hak' : a = k'
      · subst hak'
        simp [assocSet, assocGet, hab]
      · have hab' : (a == k') = false := beq_eq_false_iff_ne.mpr hak'
        simp [assocSet, assocGet, hab, hab', ih]

theorem mem_assocSet {α : Type} (l : List (String × α)) (k : String) (v : α) :
    ∀ kv ∈ assocSet l k v, kv.fst = k ∨ kv ∈ l := by
  induction l with
  | nil => simp [assocSet]
  | cons kv₀ rest ih =>
    intro kv hkv
    rcases kv₀ with ⟨a, b⟩
    by_cases h : a = k
    · have hb : (a == k) = true := beq_iff_eq.mpr h
      simp only [assocSet, hb, if_true] at hkv
      rcases List.mem_cons.mp hkv with h' | h'
      · left; rw [h']
      · right; exact List.mem_cons_of_mem _ h'
    · have hb : (a == k) = false := beq_eq_false_iff_ne.mpr h
      simp only [assocSet, hb, Bool.false_eq_true, if_false] at hkv
      rcases List.mem_cons.mp hkv with h' | h'
      · right; exact h' ▸ List.mem_cons_self _ _
      · rcases ih kv h' with h'' | h''
        · left; exact h''
        · right; exact List.mem_cons_of_mem _ h''

/-- AddRuntime writes exactly the tagged entry under the given name and
leaves the other runtime entries alone. -/
theorem addRuntimeV1_runtimes (cfg : ConfigV1) (name binaryPath : String)
    (setAsDefault : Bool) :
    (addRuntimeV1 cfg name binaryPath setAsDefault).tree.runtimes =
      assocSet cfg.tree.runtimes name (builtEntry (inheritBase cfg) binaryPath) := by
  unfold addRuntimeV1
  split
  · rfl
  · split <;> rfl

theorem addRuntimeV1_drn (cfg : ConfigV1) (name binaryPath : String)
    (setAsDefault : Bool) :
    (addRuntimeV1 cfg name binaryPath setAsDefault).tree.default_runtime_name =
      (if setAsDefault && cfg.UseDefaultRuntimeName then some name
        else cfg.tree.default_runtime_name) := by
  unfold addRuntimeV1
  rcases h : setAsDefault && cfg.UseDefaultRuntimeName with _ | _
  · simp only [h, Bool.false_eq_true, if_false]
    split <;> rfl
  · simp [h]

theorem addRuntimeV1_dr (cfg : ConfigV1) (name binaryPath : String)
    (setAsDefault : Bool) :
    (addRuntimeV1 cfg name binaryPath setAsDefault).tree.default_runtime =
      (if setAsDefault && !cfg.UseDefaultRuntimeName then
          some (builtEntryNoSelector (inheritBase cfg) binaryPath)
        else cfg.tree.default_runtime) := by
  unfold addRuntimeV1
  rcases hs : setAsDefault with _ | _
  · simp [hs]
  · rcases hu : cfg.UseDefaultRuntimeName with _ | _ <;> simp [hs, hu]

theorem addRuntimeV1_UseDefaultRuntimeName (cfg : ConfigV1)
    (name binaryPath : String) (setAsDefault : Bool) :
    (addRuntimeV1 cfg name binaryPath setAsDefault).UseDefaultRuntimeName =
      cfg.UseDefaultRuntimeName := rfl

/-- Inheriting is stable under adding a runtime that is not runc. -/
theorem inheritBase_addRuntimeV1 (cfg : ConfigV1) (name binaryPath : String)
    (setAsDefault : Bool) (h : name ≠ "runc") :
    inheritBase (addRuntimeV1 cfg name binaryPath setAsDefault) =
      inheritBase cfg := by
  unfold inheritBase
  rw [addRuntimeV1_runtimes, assocGet_assocSet_ne _ _ _ _ (Ne.symm h)]
  rfl

theorem applyRuntimeUpdates_UseDefaultRuntimeName (dir : String)
    (L : List (String × String × Bool)) (cfg : ConfigV1) :
    (applyRuntimeUpdates cfg dir L).UseDefaultRuntimeName =
      cfg.UseDefaultRuntimeName := by
  induction L generalizing cfg with
  | nil => rfl
  | cons x rest ih => simpa [applyRuntimeUpdates] using ih _

theorem applyRuntimeUpdates_append (cfg : ConfigV1) (dir : String)
    (L1 L2 : List (String × String × Bool)) :
    applyRuntimeUpdates cfg dir (L1 ++ L2) =
      applyRuntimeUpdates (applyRuntimeUpdates cfg dir L1) dir L2 := by
  induction L1 generalizing cfg with
  | nil => rfl
  | cons x rest ih => simp [applyRuntimeUpdates, ih]

/-- Every runtime entry after an update run is either one of the written
names or was already there. -/
theorem applyRuntimeUpdates_mem (dir : String)
    (L : List (String × String × Bool)) (cfg : ConfigV1) :
    ∀ kv ∈ (applyRuntimeUpdates cfg dir L).tree.runtimes,
      kv.fst ∈ L.map (fun x => x.fst) ∨ kv ∈ cfg.tree.runtimes := by
  induction L generalizing cfg with
  | nil => intro kv hkv; right; exact hkv
  | cons x rest ih =>
    intro kv hkv
    rcases ih _ kv hkv with h | h
    · left; exact List.mem_cons_of_mem _ h
    · rw [addRuntimeV1_runtimes] at h
      rcases mem_assocSet _ _ _ kv h with h' | h'
      · left; rw [h']; exact List.mem_cons_self _ _
      · right; exact h'

/-- Runs with no set-as-default flag leave both default fields alone. -/
theorem applyRuntimeUpdates_defaults_of_no_flag (dir : String)
    (L : List (String × String × Bool)) (cfg : ConfigV1)
    (h : ∀ x ∈ L, x.snd.snd = false) :
    (applyRuntimeUpdates cfg dir L).tree.default_runtime =
      cfg.tree.default_runtime
    ∧ (applyRuntimeUpdates cfg dir L).tree.default_runtime_name =
      cfg.tree.default_runtime_name := by
  induction L generalizing cfg with
  | nil => exact ⟨rfl, rfl⟩
  | cons x rest ih =>
    have hx : x.snd.snd = false := h x (List.mem_cons_self _ _)
    have hrest : ∀ y ∈ rest, y.snd.snd = false :=
      fun y hy => h y (List.mem_cons_of_mem _ hy)
    have := ih (addRuntimeV1 cfg x.fst (joinPath dir x.snd.fst) x.snd.snd) hrest
    simp only [applyRuntimeUpdates]
    rw [this.1, this.2, addRuntimeV1_dr, addRuntimeV1_drn, hx]
    simp

/-- A name written by none of the updates keeps its lookup. -/
theorem applyRuntimeUpdates_get_preserved (dir k : String)
    (L : List (String × String × Bool)) (cfg : ConfigV1)
    (h : ∀ x ∈ L, x.fst ≠ k) :
    assocGet (applyRuntimeUpdates cfg dir L).tree.runtimes k =
      assocGet cfg.tree.runtimes k := by
  induction L generalizing cfg with
  | nil => rfl
  | cons x rest ih =>
    have hx : x.fst ≠ k := h x (List.mem_cons_self _ _)
    have hrest : ∀ y ∈ rest, y.fst ≠ k :=
      fun y hy => h y (List.mem_cons_of_mem _ hy)
    simp only [applyRuntimeUpdates]
    rw [ih _ hrest, addRuntimeV1_runtimes,
      assocGet_assocSet_ne _ _ _ _ (Ne.symm hx)]

theorem builtEntryNoSelector_BinaryName (base : RuntimeEntry) (p : String) :
    assocGet (builtEntryNoSelector base p).options "BinaryName" = some p := by
  simp only [builtEntryNoSelector]
  rw [assocGet_assocSet_ne _ _ _ _ (by decide), assocGet_assocSet_self]

theorem builtEntryNoSelector_Runtime (base : RuntimeEntry) (p : String) :
    assocGet (builtEntryNoSelector base p).options "Runtime" = some p := by
  simp only [builtEntryNoSelector]
  rw [assocGet_assocSet_self]

theorem builtEntryNoSelector_other (base : RuntimeEntry) (p k : String)
    (h1 : k ≠ "BinaryName") (h2 : k ≠ "Runtime") :
    assocGet (builtEntryNoSelector base p).options k = assocGet base.options k := by
  simp only [builtEntryNoSelector]
  rw [assocGet_assocSet_ne _ _ _ _ h2, assocGet_assocSet_ne _ _ _ _ h1]

/-- An update run whose single set-as-default item is the given one: the
default fields end up as that item dictates (a pointer under
UseDefaultRuntimeName, the inline pre-selector copy otherwise), and the
item's runtime entry is in place at the end of the run. -/
theorem applyRuntimeUpdates_flagged (cfg : ConfigV1) (dir : String)
    (pre post : List (String × String × Bool)) (n b : String)
    (hpre : ∀ x ∈ pre, x.snd.snd = false)
    (hpost : ∀ x ∈ post, x.snd.snd = false)
    (hpostn : ∀ x ∈ post, x.fst ≠ n) :
    (applyRuntimeUpdates cfg dir
        (pre ++ (n, b, true) :: post)).tree.default_runtime_name
      = (if cfg.UseDefaultRuntimeName then some n
          else cfg.tree.default_runtime_name)
    ∧ (applyRuntimeUpdates cfg dir
        (pre ++ (n, b, true) :: post)).tree.default_runtime
      = (if cfg.UseDefaultRuntimeName then cfg.tree.default_runtime
          else some (builtEntryNoSelector
            (inheritBase (applyRuntimeUpdates cfg dir pre)) (joinPath dir b)))
    ∧ assocGet (applyRuntimeUpdates cfg dir
        (pre ++ (n, b, true) :: post)).tree.runtimes n
      = some (builtEntry (inheritBase (applyRuntimeUpdates cfg dir pre))
          (joinPath dir b)) := by
  rw [applyRuntimeUpdates_append]
  set mid := applyRuntimeUpdates cfg dir pre with hmid
  have hU : mid.UseDefaultRuntimeName = cfg.UseDefaultRuntimeName :=
    applyRuntimeUpdates_UseDefaultRuntimeName dir pre cfg
  have hdefpre := applyRuntimeUpdates_defaults_of_no_flag dir pre cfg hpre
  simp only [applyRuntimeUpdates]
  have hdefpost := applyRuntimeUpdates_defaults_of_no_flag dir post
    (addRuntimeV1 mid n (joinPath dir b) true) hpost
  refine ⟨?_, ?_, ?_⟩
  · rw [hdefpost.2, addRuntimeV1_drn, hU, hdefpre.2]
    rcases h : cfg.UseDefaultRuntimeName with _ | _ <;> simp [h]
  · rw [hdefpost.1, addRuntimeV1_dr, hU, hdefpre.1]
    rcases h : cfg.UseDefaultRuntimeName with _ | _ <;> simp [h]
  · rw [applyRuntimeUpdates_get_preserved _ _ post _ hpostn,
      addRuntimeV1_runtimes, assocGet_assocSet_self]

/-- The flagged managed list splits around its single flagged item, which
carries the effective class; the other items are unflagged and named
differently. -/
theorem managedFlagged_decomp (o : UpdateOptions) (hsd : o.setAsDefault = true) :
    ∃ pre post b,
      managedRuntimesWithDefaultFlag o = pre ++ (effectiveClass o, b, true) :: post
      ∧ (∀ x ∈ pre, x.snd.snd = false)
      ∧ (∀ x ∈ post, x.snd.snd = false)
      ∧ (∀ x ∈ post, x.fst ≠ effectiveClass o)
      ∧ (effectiveClass o, b) ∈ managedRuntimes o := by
  by_cases hmem : effectiveClass o ∈ suffixedRuntimes.map Prod.fst
  · have he : effectiveClass o = "nvidia-experimental"
        ∨ effectiveClass o = "nvidia-cdi"
        ∨ effectiveClass o = "nvidia-legacy" := by
      simpa [suffixedRuntimes] using hmem
    have hcont : (suffixedRuntimes.map Prod.fst).contains (effectiveClass o) = true :=
      List.elem_eq_true_of_mem hmem
    rcases he with he | he | he
    · refine ⟨[("nvidia", "nvidia-container-runtime", false)],
        [("nvidia-cdi", "nvidia-container-runtime.cdi", false),
         ("nvidia-legacy", "nvidia-container-runtime.legacy", false)],
        "nvidia-container-runtime.experimental", ?_, ?_, ?_, ?_, ?_⟩
      · simp [managedRuntimesWithDefaultFlag, managedRuntimes, hcont, he, hsd,
          suffixedRuntimes, nvidiaRuntimeName, nvidiaRuntimeBinary]
      · simp
      · simp
      · simp [he]
      · simp [managedRuntimes, hcont, he, suffixedRuntimes]
    · refine ⟨[("nvidia", "nvidia-container-runtime", false),
         ("nvidia-experimental", "nvidia-container-runtime.experimental", false)],
        [("nvidia-legacy", "nvidia-container-runtime.legacy", false)],
        "nvidia-container-runtime.cdi", ?_, ?_, ?_, ?_, ?_⟩
      · simp [managedRuntimesWithDefaultFlag, managedRuntimes, hcont, he, hsd,
          suffixedRuntimes, nvidiaRuntimeName, nvidiaRuntimeBinary]
      · simp
      · simp
      · simp [he]
      · simp [managedRuntimes, hcont, he, suffixedRuntimes]
    · refine ⟨[("nvidia", "nvidia-container-runtime", false),
         ("nvidia-experimental", "nvidia-container-runtime.experimental", false),
         ("nvidia-cdi", "nvidia-container-runtime.cdi", false)],
        [], "nvidia-container-runtime.legacy", ?_, ?_, ?_, ?_, ?_⟩
      · simp [managedRuntimesWithDefaultFlag, managedRuntimes, hcont, he, hsd,
          suffixedRuntimes, nvidiaRuntimeName, nvidiaRuntimeBinary]
      · simp
      · simp
      · simp
      · simp [managedRuntimes, hcont, he, suffixedRuntimes]
  · have hcont : (suffixedRuntimes.map Prod.fst).contains (effectiveClass o) = false := by
      simpa using hmem
    have hne1 : effectiveClass o ≠ "nvidia-experimental" := by
      intro hh; apply hmem; rw [hh]; decide
    have hne2 : effectiveClass o ≠ "nvidia-cdi" := by
      intro hh; apply hmem; rw [hh]; decide
    have hne3 : effectiveClass o ≠ "nvidia-legacy" := by
      intro hh; apply hmem; rw [hh]; decide
    refine ⟨[],
      [("nvidia-experimental", "nvidia-container-runtime.experimental", false),
       ("nvidia-cdi", "nvidia-container-runtime.cdi", false),
       ("nvidia-legacy", "nvidia-container-runtime.legacy", false)],
      nvidiaRuntimeBinary, ?_, ?_, ?_, ?_, ?_⟩
    · simp [managedRuntimesWithDefaultFlag, managedRuntimes, hcont, hsd,
        suffixedRuntimes, hne1, hne2, hne3,
        beq_eq_false_iff_ne.mpr (Ne.symm hne1),
        beq_eq_false_iff_ne.mpr (Ne.symm hne2),
        beq_eq_false_iff_ne.mpr (Ne.symm hne3)]
    · simp
    · simp
    · simp [Ne.symm hne1, Ne.symm hne2, Ne.symm hne3]
    · simp only [managedRuntimes]
      rw [hcont]
      simp

theorem revertV1_runtimes (cfg : ConfigV1) (o : UpdateOptions) :
    (RevertConfigV1 cfg o).tree.runtimes =
      cfg.tree.runtimes.filter
        (fun kv => !(((managedRuntimes o).map Prod.fst).contains kv.fst)) := rfl

theorem revertV1_drn (cfg : ConfigV1) (o : UpdateOptions) :
    (RevertConfigV1 cfg o).tree.default_runtime_name =
      (match cfg.tree.default_runtime_name with
        | some n =>
          if ((managedRuntimes o).map Prod.fst).contains n then none else some n
        | none => none) := rfl

theorem revertV1_dr (cfg : ConfigV1) (o : UpdateOptions) :
    (RevertConfigV1 cfg o).tree.default_runtime =
      (match cfg.tree.default_runtime with
        | some e =>
          match assocGet e.options "BinaryName" with
          | some b =>
            if ((managedRuntimes o).map
                (fun nb => joinPath o.runtimeDir nb.snd)).contains b then none
            else some e
          | none => some e
        | none => none) := rfl

theorem revertV1_version (cfg : ConfigV1) (o : UpdateOptions) :
    (RevertConfigV1 cfg o).tree.version =
      (if (RevertConfigV1 cfg o).tree.runtimes.isEmpty
          && (RevertConfigV1 cfg o).tree.default_runtime.isNone
          && (RevertConfigV1 cfg o).tree.default_runtime_name.isNone
        then none else cfg.tree.version) := rfl

/-- C7: Update followed immediately by Revert with the same options on the
empty initial V1 tree yields the empty tree again — no runtime entries,
no default pointer or inline entry and no version stamp remain — whatever
the options, the UseDefaultRuntimeName flag and the runtime type. -/
theorem updateV1_revertV1_empty_roundtrip (o : UpdateOptions) (udrn : Bool)
    (rt : String) :
    (RevertConfigV1 (UpdateConfigV1 ⟨emptyTreeV1, udrn, rt⟩ o) o).tree
      = emptyTreeV1 := by
  set cfg : ConfigV1 := ⟨emptyTreeV1, udrn, rt⟩ with hcfg
  have hkeys : ∀ kv ∈ (UpdateConfigV1 cfg o).tree.runtimes,
      kv.fst ∈ (managedRuntimes o).map Prod.fst := by
    intro kv hkv
    rcases applyRuntimeUpdates_mem o.runtimeDir _ cfg kv hkv with h | h
    · simpa [managedRuntimesWithDefaultFlag] using h
    · simp [hcfg, emptyTreeV1] at h
  have hkept : (RevertConfigV1 (UpdateConfigV1 cfg o) o).tree.runtimes = [] := by
    rw [revertV1_runtimes]
    refine List.filter_eq_nil_iff.mpr ?_
    intro kv hkv
    have hc := List.elem_eq_true_of_mem (hkeys kv hkv)
    simp only [hc]
    decide
  have hdefs : (RevertConfigV1 (UpdateConfigV1 cfg o) o).tree.default_runtime = none
      ∧ (RevertConfigV1 (UpdateConfigV1 cfg o) o).tree.default_runtime_name
        = none := by
    rcases hsd : o.setAsDefault with _ | _
    · have hnoflag : ∀ x ∈ managedRuntimesWithDefaultFlag o, x.snd.snd = false := by
        intro x hx
        simp only [managedRuntimesWithDefaultFlag, List.mem_map] at hx
        obtain ⟨nb, _, hnb⟩ := hx
        rw [← hnb]
        simp [hsd]
      have h := applyRuntimeUpdates_defaults_of_no_flag o.runtimeDir _ cfg hnoflag
      have hu1 : (UpdateConfigV1 cfg o).tree.default_runtime = none := h.1
      have hu2 : (UpdateConfigV1 cfg o).tree.default_runtime_name = none := h.2
      constructor
      · rw [revertV1_dr, hu1]
      · rw [revertV1_drn, hu2]
    · obtain ⟨pre, post, b, hdec, hpre, hpost, hpostn, hmem⟩ :=
        managedFlagged_decomp o hsd
      have hflag := applyRuntimeUpdates_flagged cfg o.runtimeDir pre post
        (effectiveClass o) b hpre hpost hpostn
      have hUdrn : (UpdateConfigV1 cfg o).tree.default_runtime_name
          = (if udrn then some (effectiveClass o) else none) := by
        show (applyRuntimeUpdates cfg o.runtimeDir
          (managedRuntimesWithDefaultFlag o)).tree.default_runtime_name = _
        rw [hdec, hflag.1]
        rfl
      have hUdr : (UpdateConfigV1 cfg o).tree.default_runtime
          = (if udrn then none
              else some (builtEntryNoSelector
                (inheritBase (applyRuntimeUpdates cfg o.runtimeDir pre))
                (joinPath o.runtimeDir b))) := by
        show (applyRuntimeUpdates cfg o.runtimeDir
          (managedRuntimesWithDefaultFlag o)).tree.default_runtime = _
        rw [hdec, hflag.2.1]
        rfl
      rcases hudrn : udrn with _ | _
      · constructor
        · rw [revertV1_dr, hUdr]
          simp only [hudrn, Bool.false_eq_true, if_false]
          rw [builtEntryNoSelector_BinaryName]
          have hb : joinPath o.runtimeDir b ∈
              (managedRuntimes o).map (fun nb => joinPath o.runtimeDir nb.snd) :=
            List.mem_map_of_mem _ hmem
          have hc := List.elem_eq_true_of_mem hb
          simp only [hc]
          rfl
        · rw [revertV1_drn, hUdrn]
          simp [hudrn]
      · constructor
        · rw [revertV1_dr, hUdr]
          simp [hudrn]
        · rw [revertV1_drn, hUdrn]
          have hn : effectiveClass o ∈ (managedRuntimes o).map Prod.fst :=
            List.mem_map_of_mem _ hmem
          have hc := List.elem_eq_true_of_mem hn
          simp only [hudrn, if_true, hc]
  have hver : (RevertConfigV1 (UpdateConfigV1 cfg o) o).tree.version = none := by
    rw [revertV1_version, hkept, hdefs.1, hdefs.2]
    rfl
  rw [show (RevertConfigV1 (UpdateConfigV1 cfg o) o).tree =
      { version := (RevertConfigV1 (UpdateConfigV1 cfg o) o).tree.version,
        runtimes := (RevertConfigV1 (UpdateConfigV1 cfg o) o).tree.runtimes,
        default_runtime :=
          (RevertConfigV1 (UpdateConfigV1 cfg o) o).tree.default_runtime,
        default_runtime_name :=
          (RevertConfigV1 (UpdateConfigV1 cfg o) o).tree.default_runtime_name }
    from rfl, hver, hkept, hdefs.1, hdefs.2]
  rfl

/-- With a runc entry present and no update named runc, every written
entry ends up as the runc-inherited tagged entry under its name. -/
theorem applyRuntimeUpdates_get_of_mem (dir : String)
    (L : List (String × String × Bool)) (cfg : ConfigV1)
    (runc : RuntimeEntry)
    (hrc : assocGet cfg.tree.runtimes "runc" = some runc)
    (hnr : ∀ x ∈ L, x.fst ≠ "runc")
    (hndup : (L.map (fun x => x.fst)).Nodup) :
    ∀ x ∈ L, assocGet (applyRuntimeUpdates cfg dir L).tree.runtimes x.fst =
      some (builtEntry runc (joinPath dir x.snd.fst)) := by
  induction L generalizing cfg with
  | nil => intro x hx; cases hx
  | cons a rest ih =>
    intro x hx
    have hanr : a.fst ≠ "runc" := hnr a (List.mem_cons_self _ _)
    have hrc' : assocGet (addRuntimeV1 cfg a.fst (joinPath dir a.snd.fst)
        a.snd.snd).tree.runtimes "runc" = some runc := by
      rw [addRuntimeV1_runtimes, assocGet_assocSet_ne _ _ _ _ (Ne.symm hanr), hrc]
    have hibase : inheritBase cfg = runc := by
      unfold inheritBase
      rw [hrc]
    rcases List.mem_cons.mp hx with hxa | hxr
    · subst hxa
      have hnot : ∀ y ∈ rest, y.fst ≠ x.fst := by
        intro y hy he
        apply (List.nodup_cons.mp hndup).1
        have hm : y.fst ∈ rest.map (fun x => x.fst) := List.mem_map_of_mem _ hy
        rw [he] at hm
        exact hm
      simp only [applyRuntimeUpdates]
      rw [applyRuntimeUpdates_get_preserved _ _ rest _ hnot,
        addRuntimeV1_runtimes, assocGet_assocSet_self, hibase]
    · have hndup' : (rest.map (fun x => x.fst)).Nodup :=
        (List.nodup_cons.mp hndup).2
      have hnr' : ∀ y ∈ rest, y.fst ≠ "runc" :=
        fun y hy => hnr y (List.mem_cons_of_mem _ hy)
      simp only [applyRuntimeUpdates]
      exact ih _ hrc' hnr' hndup' x hxr

/-- When the requested runtime class is not runc, none of the managed
runtime names is runc. -/
theorem managedRuntimes_ne_runc (o : UpdateOptions)
    (h : o.runtimeClass ≠ "runc") :
    ∀ nb ∈ managedRuntimes o, nb.fst ≠ "runc" := by
  have he : effectiveClass o ≠ "runc" := by
    unfold effectiveClass
    split
    · decide
    · exact h
  intro nb hnb
  simp only [managedRuntimes] at hnb
  rcases List.mem_cons.mp hnb with h1 | h1
  · split at h1
    · rw [h1]; decide
    · rw [h1]; exact he
  · simp only [suffixedRuntimes, List.mem_cons, List.mem_singleton,
      List.not_mem_nil, or_false] at h1
    rcases h1 with h1 | h1 | h1 <;> (rw [h1]; decide)

/-- The managed runtime names are pairwise distinct. -/
theorem managedNames_nodup (o : UpdateOptions) :
    ((managedRuntimesWithDefaultFlag o).map (fun x => x.fst)).Nodup := by
  have hmapnames : (managedRuntimesWithDefaultFlag o).map (fun x => x.fst)
      = (managedRuntimes o).map Prod.fst := by
    rw [managedRuntimesWithDefaultFlag, List.map_map]
    rfl
  rw [hmapnames]
  by_cases hc :
      (suffixedRuntimes.map Prod.fst).contains (effectiveClass o) = true
  · simp only [managedRuntimes, hc, if_true]
    decide
  · have hmem : effectiveClass o ∉ suffixedRuntimes.map Prod.fst := by
      intro hm
      exact absurd (List.elem_eq_true_of_mem hm) hc
    simp only [managedRuntimes, hc, Bool.false_eq_true, if_false, List.map_cons]
    refine List.nodup_cons.mpr ⟨?_, by decide⟩
    simpa [suffixedRuntimes] using hmem

/-- C8: Update on a tree that already holds a runc runtime entry keeps
that entry untouched (the requested class being an entry other than runc),
and every managed entry it writes inherits runc's runtime_type,
runtime_root, runtime_engine, privileged_without_host_devices and extra
options, with BinaryName and Runtime overwritten to the computed binary
path. -/
theorem updateV1_preserves_runc (cfg : ConfigV1) (o : UpdateOptions)
    (runc : RuntimeEntry)
    (hrc : assocGet cfg.tree.runtimes "runc" = some runc)
    (hcls : o.runtimeClass ≠ "runc") :
    assocGet (UpdateConfigV1 cfg o).tree.runtimes "runc" = some runc
    ∧ ∀ nb ∈ managedRuntimes o,
        ∃ entry,
          assocGet (UpdateConfigV1 cfg o).tree.runtimes nb.fst = some entry
          ∧ entry.runtime_type = runc.runtime_type
          ∧ entry.runtime_root = runc.runtime_root
          ∧ entry.runtime_engine = runc.runtime_engine
          ∧ entry.privileged_without_host_devices
              = runc.privileged_without_host_devices
          ∧ assocGet entry.options "BinaryName"
              = some (joinPath o.runtimeDir nb.snd)
          ∧ assocGet entry.options "Runtime"
              = some (joinPath o.runtimeDir nb.snd)
          ∧ ∀ k, k ≠ "BinaryName" → k ≠ "Runtime" →
              assocGet entry.options k = assocGet runc.options k := by
  have hnric : ∀ x ∈ managedRuntimesWithDefaultFlag o, x.fst ≠ "runc" := by
    intro x hx
    simp only [managedRuntimesWithDefaultFlag, List.mem_map] at hx
    obtain ⟨nb, hnb, hx'⟩ := hx
    rw [← hx']
    exact managedRuntimes_ne_runc o hcls nb hnb
  constructor
  · exact (applyRuntimeUpdates_get_preserved _ _ _ _ hnric).trans hrc
  · intro nb hnb
    have hx : (nb.fst, nb.snd, o.setAsDefault && nb.fst == effectiveClass o) ∈
        managedRuntimesWithDefaultFlag o := by
      simp only [managedRuntimesWithDefaultFlag, List.mem_map]
      exact ⟨nb, hnb, rfl⟩
    have h := applyRuntimeUpdates_get_of_mem o.runtimeDir _ cfg runc hrc hnric
      (managedNames_nodup o) _ hx
    exact ⟨builtEntry runc (joinPath o.runtimeDir nb.snd), h, rfl, rfl, rfl, rfl,
      builtEntryNoSelector_BinaryName runc _,
      builtEntryNoSelector_Runtime runc _,
      fun k h1 h2 => builtEntryNoSelector_other runc _ k h1 h2⟩

/-- The runc entry of the Go test TestUpdateV1ConfigWithRuncPresent. -/
def runcTestEntry : RuntimeEntry :=
  { runtime_type := "runc_runtime_type", runtime_root := "runc_runtime_root",
    runtime_engine := "runc_runtime_engine",
    privileged_without_host_devices := true, container_annotations := none,
    options := [("runc-option", "value"), ("BinaryName", "/runc-binary")] }

/-- The test tree holding only the runc entry, as a V1 config. -/
def runcTestConfig : ConfigV1 :=
  ⟨{ emptyTreeV1 with runtimes := [("runc", runcTestEntry)] }, true,
    "runtime_type"⟩

/-- The test options: runtime class nvidia, no default, the test runtime
directory. -/
def runcTestOptions : UpdateOptions := ⟨"nvidia", false, "/test/runtime/dir"⟩

/-- Closed witness for the runc preservation theorem at the Go test's
runc-present tree. -/
theorem updateV1_preserves_runc_witness :
    assocGet (UpdateConfigV1 runcTestConfig runcTestOptions).tree.runtimes "runc"
      = some runcTestEntry
    ∧ ∀ nb ∈ managedRuntimes runcTestOptions,
        ∃ entry,
          assocGet (UpdateConfigV1 runcTestConfig runcTestOptions).tree.runtimes
              nb.fst = some entry
          ∧ entry.runtime_type = runcTestEntry.runtime_type
          ∧ entry.runtime_root = runcTestEntry.runtime_root
          ∧ entry.runtime_engine = runcTestEntry.runtime_engine
          ∧ entry.privileged_without_host_devices
              = runcTestEntry.privileged_without_host_devices
          ∧ assocGet entry.options "BinaryName"
              = some (joinPath runcTestOptions.runtimeDir nb.snd)
          ∧ assocGet entry.options "Runtime"
              = some (joinPath runcTestOptions.runtimeDir nb.snd)
          ∧ ∀ k, k ≠ "BinaryName" → k ≠ "Runtime" →
              assocGet entry.options k = assocGet runcTestEntry.options k :=
  updateV1_preserves_runc runcTestConfig runcTestOptions runcTestEntry
    (by decide) (by decide)

/-- A V1 config in the non-legacy mode the tests call
UseDefaultRuntimeName = true, over the empty tree. -/
def nonLegacyV1Config : ConfigV1 := ⟨emptyTreeV1, true, "runtime_type"⟩

/-- A legacy-mode V1 config (UseDefaultRuntimeName = false) over the empty
tree. -/
def legacyV1Config : ConfigV1 := ⟨emptyTreeV1, false, "runtime_type"⟩

/-- The set-as-default options of the Go default-runtime test. -/
def setDefaultOptions : UpdateOptions := ⟨"nvidia", true, "/test/runtime/dir"⟩

/-- C9 counterexample: on a V1 tree with UseDefaultRuntimeName set (the
non-legacy V1 configuration of the tests), Update with setAsDefault writes
the default_runtime_name pointer "nvidia" and inlines nothing under
default_runtime — refuting the claim that every V1 update inlines a full
copy instead of writing a pointer. -/
theorem updateV1_default_runtime_name_pointer_cex :
    (UpdateConfigV1 nonLegacyV1Config setDefaultOptions).tree.default_runtime
      = none
    ∧ (UpdateConfigV1 nonLegacyV1Config
        setDefaultOptions).tree.default_runtime_name = some "nvidia" :=
  ⟨rfl, rfl⟩

/-- C9 amended: on a V1 tree in legacy mode (UseDefaultRuntimeName false),
Update with setAsDefault inlines under default_runtime a copy of the
selected runtime's entry as built before the container_annotations tag is
applied (so it carries no name field and no selector tag), and writes no
default_runtime_name pointer (that field is left untouched). -/
theorem updateV1_legacy_inlines_default_runtime (cfg : ConfigV1)
    (o : UpdateOptions) (hsd : o.setAsDefault = true)
    (hudrn : cfg.UseDefaultRuntimeName = false) :
    ∃ e, (UpdateConfigV1 cfg o).tree.default_runtime = some e
      ∧ assocGet (UpdateConfigV1 cfg o).tree.runtimes (effectiveClass o)
          = some { e with container_annotations := some cdiAnnotationSelectors }
      ∧ (UpdateConfigV1 cfg o).tree.default_runtime_name
          = cfg.tree.default_runtime_name := by
  obtain ⟨pre, post, b, hdec, hpre, hpost, hpostn, hmem⟩ :=
    managedFlagged_decomp o hsd
  have hflag := applyRuntimeUpdates_flagged cfg o.runtimeDir pre post
    (effectiveClass o) b hpre hpost hpostn
  refine ⟨builtEntryNoSelector
    (inheritBase (applyRuntimeUpdates cfg o.runtimeDir pre))
    (joinPath o.runtimeDir b), ?_, ?_, ?_⟩
  · show (applyRuntimeUpdates cfg o.runtimeDir
      (managedRuntimesWithDefaultFlag o)).tree.default_runtime = _
    rw [hdec, hflag.2.1, hudrn]
    simp
  · show assocGet (applyRuntimeUpdates cfg o.runtimeDir
      (managedRuntimesWithDefaultFlag o)).tree.runtimes (effectiveClass o) = _
    rw [hdec, hflag.2.2]
    rfl
  · show (applyRuntimeUpdates cfg o.runtimeDir
      (managedRuntimesWithDefaultFlag o)).tree.default_runtime_name = _
    rw [hdec, hflag.1, hudrn]
    simp

/-- Closed witness for the legacy inline-default theorem at the Go test's
legacy set-as-default case. -/
theorem updateV1_legacy_inlines_default_runtime_witness :
    ∃ e, (UpdateConfigV1 legacyV1Config setDefaultOptions).tree.default_runtime
        = some e
      ∧ assocGet (UpdateConfigV1 legacyV1Config
            setDefaultOptions).tree.runtimes (effectiveClass setDefaultOptions)
          = some { e with container_annotations := some cdiAnnotationSelectors }
      ∧ (UpdateConfigV1 legacyV1Config
          setDefaultOptions).tree.default_runtime_name
          = legacyV1Config.tree.default_runtime_name :=
  updateV1_legacy_inlines_default_runtime legacyV1Config setDefaultOptions
    rfl rfl
